import Mathlib

/-!
Shallow embedding of the WebSocket connection manager of
`src/hooks/useWebSocket.ts` (RTC-ChatApp-UI).

The hook is driven by a single-threaded event loop: the caller's
`connect` / `disconnect` / `sendMessage` invocations, the reconnect
timer callback, and the transport events (`onopen`, `onmessage`,
`onclose`, `onerror`) registered on each created `WebSocket` object.
We model the mutable refs of the hook plus the browser-side facts the
handlers consult (each created socket's `readyState`, the set of timers
that are still pending) as one state record, and every event as a state
transformer translated line by line from the source.

Socket objects are identified by their creation index (`wsRef` stores
the index of the currently owned socket); timer handles by the value
`window.setTimeout` returned.  Calls that the caller or the browser can
observe (invocations of `onConnect` / `onDisconnect` / `onMessage`,
frames written to a socket, strings passed to `setError`) are logged in
the state so the theorems can speak about them.
-/

namespace RTCChat

/-- Browser `WebSocket.readyState` values. -/
inductive ReadyState where
  | CONNECTING
  | OPEN
  | CLOSING
  | CLOSED
deriving DecidableEq, Repr

/-- A parsed inbound JSON frame.  Every field of the `Message` interface
of `useWebSocket.ts` is optional here because `JSON.parse` performs no
validation: the TypeScript annotation `const message: Message = ...` is
a compile-time cast only, so any field may be absent at runtime. -/
structure Frame where
  type : Option String
  room_id : Option Int
  sender_id : Option Int
  username : Option String
  content : Option String
  ts : Option Int
deriving DecidableEq, Repr

/-- Payload of an outbound write on a socket. -/
inductive Payload where
  /-- `JSON.stringify({ type: "pong" })`, written by the ping handler. -/
  | pong
  /-- `JSON.stringify({ content })`, written by `sendMessage`. -/
  | content (s : String)
deriving DecidableEq, Repr

/-- The mutable state of one `useWebSocket` hook instance together with
the browser-side facts its handlers consult, and logs of the
caller-observable effects. -/
structure HookState where
  /-- `isConnected` React state. -/
  isConnected : Bool
  /-- `error` React state (last value passed to `setError`). -/
  error : Option String
  /-- `wsRef.current`: index of the currently owned socket, if any. -/
  wsRef : Option Nat
  /-- `reconnectTimeoutRef.current`: last stored timer id, if any. -/
  reconnectTimeoutRef : Option Nat
  /-- `reconnectAttemptsRef.current`. -/
  reconnectAttemptsRef : Nat
  /-- `isConnectingRef.current`. -/
  isConnectingRef : Bool
  /-- `readyState` of every socket created so far, indexed by creation
  order; the next socket to be created gets index `sockets.length`. -/
  sockets : List ReadyState
  /-- Timer ids scheduled by `window.setTimeout` and neither fired nor
  cancelled yet. -/
  activeTimers : List Nat
  /-- Next timer id `window.setTimeout` will hand out. -/
  nextTimerId : Nat
  /-- Number of `onConnect` invocations so far. -/
  onConnectCalls : Nat
  /-- Number of `onDisconnect` invocations so far. -/
  onDisconnectCalls : Nat
  /-- Frames forwarded to `onMessage`, in order. -/
  delivered : List Frame
  /-- Writes performed on sockets: (socket index, payload), in order. -/
  writes : List (Nat × Payload)
  /-- Every non-null string passed to `setError`, in order. -/
  errorLog : List String
deriving DecidableEq, Repr

/-- The freshly mounted hook: no socket, no timer, no error. -/
def initState : HookState :=
  { isConnected := false
    error := none
    wsRef := none
    reconnectTimeoutRef := none
    reconnectAttemptsRef := 0
    isConnectingRef := false
    sockets := []
    activeTimers := []
    nextTimerId := 0
    onConnectCalls := 0
    onDisconnectCalls := 0
    delivered := []
    writes := []
    errorLog := [] }

/-- `maxReconnectAttempts = 5` in the source. -/
def maxReconnectAttempts : Nat := 5

/-- `reconnectDelay = 3000` ms in the source. -/
def reconnectDelay : Nat := 3000

/-- The close code `cleanup` passes to `ws.close` and the code the
close handler treats as manual ("normal closure"). -/
def manualCloseCode : Nat := 1000

/-- Error string set when `open()` is called with empty config. -/
def missingConfigMsg : String := "Missing roomId or token"

/-- Error string set when the `WebSocket` constructor throws. -/
def ctorFailMsg : String := "Failed to create WebSocket connection"

/-- Error string set when the reconnection policy is exhausted. -/
def exhaustedMsg : String := "Max reconnection attempts reached. Please refresh the page."

/-- `readyState` of socket `sid`, if such a socket was ever created. -/
def readyStateOf (st : HookState) (sid : Nat) : Option ReadyState :=
  st.sockets[sid]?

/-- `readyState` of the currently owned socket (`wsRef.current?.readyState`). -/
def currentReadyState (st : HookState) : Option ReadyState :=
  st.wsRef.bind (readyStateOf st)

/-- Overwrite the `readyState` of socket `sid`. -/
def setReadyState (st : HookState) (sid : Nat) (rs : ReadyState) : HookState :=
  { st with sockets := st.sockets.set sid rs }

/-- Record a `setError(msg)` call with a non-null argument. -/
def setErrorMsg (st : HookState) (msg : String) : HookState :=
  { st with error := some msg, errorLog := st.errorLog ++ [msg] }

/-- Effect of `ws.close(...)` on the browser side: a socket in
`CONNECTING` or `OPEN` moves to `CLOSING` (its close event arrives
later); on a `CLOSING` or `CLOSED` socket the call is a no-op. -/
def browserClose (st : HookState) (sid : Nat) : HookState :=
  match readyStateOf st sid with
  | some .CONNECTING => setReadyState st sid .CLOSING
  | some .OPEN => setReadyState st sid .CLOSING
  | _ => st

/-- `cleanup` (useWebSocket.ts lines 36-53): clear the stored reconnect
timeout, close and drop the owned socket, reset the flags. -/
def cleanup (st : HookState) : HookState :=
  let st1 :=
    match st.reconnectTimeoutRef with
    | some t =>
        { st with activeTimers := st.activeTimers.erase t, reconnectTimeoutRef := none }
    | none => st
  let st2 :=
    match st1.wsRef with
    | some sid => { browserClose st1 sid with wsRef := none }
    | none => st1
  { st2 with isConnected := false, isConnectingRef := false }

/-- `connect` (useWebSocket.ts lines 55-174).  `ctorOk = false` models
`new WebSocket(wsUrl)` throwing synchronously (caught at line 169). -/
def connect (roomId token : String) (ctorOk : Bool) (st : HookState) : HookState :=
  if st.isConnectingRef then st
  else if currentReadyState st = some .OPEN then st
  else if currentReadyState st = some .CONNECTING then st
  else if roomId = "" ∨ token = "" then setErrorMsg st missingConfigMsg
  else
    let st1 := { st with isConnectingRef := true }
    let st2 := cleanup st1
    if ctorOk then
      let sid := st2.sockets.length
      { st2 with sockets := st2.sockets ++ [.CONNECTING], wsRef := some sid }
    else
      { setErrorMsg st2 ctorFailMsg with isConnectingRef := false }

/-- `ws.onopen` (lines 96-103), fired for socket `sid` once its
handshake succeeds; the browser sets `readyState` to `OPEN` first. -/
def onopen (sid : Nat) (st : HookState) : HookState :=
  let st1 := setReadyState st sid .OPEN
  { st1 with
      isConnected := true
      error := none
      reconnectAttemptsRef := 0
      isConnectingRef := false
      onConnectCalls := st1.onConnectCalls + 1 }

/-- `ws.onmessage` (lines 105-128), fired on socket `sid`; `frame = none`
models data that `JSON.parse` rejects (the handler catches and drops).
The ping reply is written on the captured socket `ws`, i.e. on `sid`,
guarded by that socket's own `readyState`. -/
def onmessage (sid : Nat) (frame : Option Frame) (st : HookState) : HookState :=
  match frame with
  | none => st
  | some m =>
      if m.type = some "ping" then
        if readyStateOf st sid = some .OPEN then
          { st with writes := st.writes ++ [(sid, .pong)] }
        else st
      else if m.type = some "pong" then st
      else if m.type = some "message" then
        { st with delivered := st.delivered ++ [m] }
      else st

/-- `ws.onclose` (lines 130-162), fired for socket `sid` with close
code `code`; the browser sets `readyState` to `CLOSED` first.  The
handler consults only the refs, never the identity of `sid`. -/
def onclose (sid : Nat) (code : Nat) (st : HookState) : HookState :=
  let st1 := setReadyState st sid .CLOSED
  let st2 :=
    { st1 with
        isConnected := false
        isConnectingRef := false
        onDisconnectCalls := st1.onDisconnectCalls + 1 }
  if code ≠ manualCloseCode ∧ st2.reconnectAttemptsRef < maxReconnectAttempts then
    let t := st2.nextTimerId
    { st2 with
        reconnectAttemptsRef := st2.reconnectAttemptsRef + 1
        reconnectTimeoutRef := some t
        activeTimers := st2.activeTimers ++ [t]
        nextTimerId := t + 1 }
  else if st2.reconnectAttemptsRef ≥ maxReconnectAttempts then
    setErrorMsg st2 exhaustedMsg
  else st2

/-- `ws.onerror` (lines 164-168). -/
def onerror (st : HookState) : HookState :=
  { st with isConnectingRef := false }

/-- The reconnect timer callback (lines 152-156): the timer id leaves the
pending set, then `if (!isConnectingRef.current) connect()`. -/
def timerFire (roomId token : String) (t : Nat) (ctorOk : Bool) (st : HookState) : HookState :=
  let st1 := { st with activeTimers := st.activeTimers.erase t }
  if st1.isConnectingRef then st1 else connect roomId token ctorOk st1

/-- `disconnect` (lines 176-180): `cleanup()` then
`reconnectAttemptsRef.current = maxReconnectAttempts`. -/
def disconnect (st : HookState) : HookState :=
  { cleanup st with reconnectAttemptsRef := maxReconnectAttempts }

/-- `sendMessage` (lines 182-207).  `writeOk = false` models
`wsRef.current.send(message)` throwing (caught at line 203).  Returns
the boolean result together with the next state. -/
def sendMessage (content : String) (writeOk : Bool) (st : HookState) : Bool × HookState :=
  match st.wsRef with
  | none => (false, st)
  | some sid =>
      if readyStateOf st sid ≠ some .OPEN then (false, st)
      else if writeOk then
        (true, { st with writes := st.writes ++ [(sid, .content content)] })
      else (false, st)

/-- One event of the single-threaded event loop driving the hook. -/
inductive Event where
  /-- The caller invokes `connect()`. -/
  | callConnect (ctorOk : Bool)
  /-- The caller invokes `disconnect()`. -/
  | callDisconnect
  /-- The caller invokes `sendMessage content`. -/
  | callSend (content : String) (writeOk : Bool)
  /-- A pending reconnect timer fires. -/
  | timerFires (t : Nat) (ctorOk : Bool)
  /-- Socket `sid` completes its handshake: `onopen` fires. -/
  | sockOpen (sid : Nat)
  /-- Socket `sid` delivers a frame: `onmessage` fires. -/
  | sockMessage (sid : Nat) (frame : Option Frame)
  /-- Socket `sid` finishes closing with `code`: `onclose` fires. -/
  | sockClose (sid : Nat) (code : Nat)
  /-- Socket `sid` reports an error: `onerror` fires. -/
  | sockError (sid : Nat)
  /-- The server initiates the closing handshake on socket `sid`: its
  `readyState` becomes `CLOSING`; the close event arrives later. -/
  | serverBeginsClose (sid : Nat)
deriving DecidableEq, Repr

/-- Which events the environment can produce in a given state: caller
invocations are always possible; a timer fires only while pending; a
socket event only while the socket is in a `readyState` admitting it. -/
def eventValid (st : HookState) (e : Event) : Bool :=
  match e with
  | .callConnect _ => true
  | .callDisconnect => true
  | .callSend _ _ => true
  | .timerFires t _ => st.activeTimers.contains t
  | .sockOpen sid => readyStateOf st sid = some .CONNECTING
  | .sockMessage sid _ =>
      readyStateOf st sid = some .OPEN ∨ readyStateOf st sid = some .CLOSING
  | .sockClose sid _ =>
      readyStateOf st sid = some .CONNECTING ∨ readyStateOf st sid = some .OPEN ∨
        readyStateOf st sid = some .CLOSING
  | .sockError sid =>
      readyStateOf st sid = some .CONNECTING ∨ readyStateOf st sid = some .OPEN ∨
        readyStateOf st sid = some .CLOSING
  | .serverBeginsClose sid => readyStateOf st sid = some .OPEN

/-- State transformer of one event (`roomId`/`token` are the props the
hook instance closed over). -/
def step (roomId token : String) (st : HookState) (e : Event) : HookState :=
  match e with
  | .callConnect ctorOk => connect roomId token ctorOk st
  | .callDisconnect => disconnect st
  | .callSend content writeOk => (sendMessage content writeOk st).2
  | .timerFires t ctorOk => timerFire roomId token t ctorOk st
  | .sockOpen sid => onopen sid st
  | .sockMessage sid frame => onmessage sid frame st
  | .sockClose sid code => onclose sid code st
  | .sockError _ => onerror st
  | .serverBeginsClose sid => setReadyState st sid .CLOSING

/-- Run a trace of events from a state. -/
def run (roomId token : String) (st : HookState) (es : List Event) : HookState :=
  es.foldl (step roomId token) st

/-- A trace is valid when each event is possible in the state it meets. -/
def traceValid (roomId token : String) (st : HookState) : List Event → Bool
  | [] => true
  | e :: es => eventValid st e && traceValid roomId token (step roomId token st e) es

/-- The spec's validation requirement on a `"message"` frame, stated from
the spec's words: the frame "is validated to contain the ChatMessage
fields" `room_id`, `sender_id`, `username`, `content`, `ts`.  Used only
to compare the decoder of the source against the spec. -/
def hasChatMessageFields (m : Frame) : Bool :=
  m.room_id.isSome && m.sender_id.isSome && m.username.isSome &&
    m.content.isSome && m.ts.isSome

/-- A `"message"` frame carrying none of the ChatMessage payload fields. -/
def unvalidatedFrame : Frame :=
  ⟨some "message", none, none, none, none, none⟩

/-- A bare `"ping"` control frame. -/
def pingFrame : Frame :=
  ⟨some "ping", none, none, none, none, none⟩

/-- One abrupt-disconnect/successful-reconnect round: after `i` complete
rounds the owned socket has index `i` and the next timer id is `i`; the
socket drops abnormally (1006), the scheduled timer fires and connects
socket `i+1`, whose handshake succeeds. -/
def reconnectRound (i : Nat) : List Event :=
  [.sockClose i 1006, .timerFires i true, .sockOpen (i + 1)]

/-- Scripted sequence of the spec's reconnection property: an initial
successful open followed by `N` abrupt disconnects each followed by a
successful reconnect. -/
def successScript : Nat → List Event
  | 0 => [.callConnect true, .sockOpen 0]
  | n + 1 => successScript n ++ reconnectRound n

/-- Scripted sequence of maxAttempts + 1 = 6 consecutive abrupt
disconnects with no successful open after the initial session: sockets
1..5 never complete their handshakes. -/
def exhaustionScript : List Event :=
  [.callConnect true, .sockOpen 0,
   .sockClose 0 1006, .timerFires 0 true,
   .sockClose 1 1006, .timerFires 1 true,
   .sockClose 2 1006, .timerFires 2 true,
   .sockClose 3 1006, .timerFires 3 true,
   .sockClose 4 1006, .timerFires 4 true,
   .sockClose 5 1006]

/-- Trace for C1: socket 0 opens; the server begins closing it; the
caller opens a new session (socket 1); socket 0's abnormal close event
then schedules timer 0; socket 1's handshake fails, scheduling timer 1
and overwriting the stored timer id without cancelling timer 0; the
caller manually disconnects (cancelling only timer 1); the leaked
timer 0 then fires. -/
def leakedTimerTrace : List Event :=
  [.callConnect true, .sockOpen 0, .serverBeginsClose 0, .callConnect true,
   .sockClose 0 1006, .sockClose 1 1006, .callDisconnect, .timerFires 0 true]

/-- Trace for C4: socket 0 opens; the server begins closing it; the
caller opens a new session, so socket 1 is now the owned handle; the
superseded socket 0's close event (code 1001) then fires. -/
def staleCloseTrace : List Event :=
  [.callConnect true, .sockOpen 0, .serverBeginsClose 0, .callConnect true,
   .sockClose 0 1001]

/-- Trace for C9: socket 0 opens; the caller manually disconnects
(`close(1000)` puts socket 0 in `CLOSING`); socket 0's clean close event
(code 1000) then arrives. -/
def manualCloseTrace : List Event :=
  [.callConnect true, .sockOpen 0, .callDisconnect, .sockClose 0 1000]

/-- Trace for C5's counterexample: a session opens and then drops
abnormally, i.e. one transition out of `Open`. -/
def abruptDropTrace : List Event :=
  [.callConnect true, .sockOpen 0, .sockClose 0 1006]

/- ------------------------------------------------------------------ -/
/- Helper lemmas                                                       -/
/- ------------------------------------------------------------------ -/

@[simp] theorem setReadyState_wsRef (st : HookState) (sid : Nat) (rs : ReadyState) :
    (setReadyState st sid rs).wsRef = st.wsRef := rfl

@[simp] theorem setReadyState_reconnectTimeoutRef (st : HookState) (sid : Nat) (rs : ReadyState) :
    (setReadyState st sid rs).reconnectTimeoutRef = st.reconnectTimeoutRef := rfl

@[simp] theorem setReadyState_reconnectAttemptsRef (st : HookState) (sid : Nat) (rs : ReadyState) :
    (setReadyState st sid rs).reconnectAttemptsRef = st.reconnectAttemptsRef := rfl

@[simp] theorem setReadyState_nextTimerId (st : HookState) (sid : Nat) (rs : ReadyState) :
    (setReadyState st sid rs).nextTimerId = st.nextTimerId := rfl

@[simp] theorem setReadyState_activeTimers (st : HookState) (sid : Nat) (rs : ReadyState) :
    (setReadyState st sid rs).activeTimers = st.activeTimers := rfl

@[simp] theorem setReadyState_errorLog (st : HookState) (sid : Nat) (rs : ReadyState) :
    (setReadyState st sid rs).errorLog = st.errorLog := rfl

@[simp] theorem setReadyState_error (st : HookState) (sid : Nat) (rs : ReadyState) :
    (setReadyState st sid rs).error = st.error := rfl

@[simp] theorem setReadyState_sockets_length (st : HookState) (sid : Nat) (rs : ReadyState) :
    (setReadyState st sid rs).sockets.length = st.sockets.length := by
  unfold setReadyState
  simp

@[simp] theorem browserClose_wsRef (st : HookState) (sid : Nat) :
    (browserClose st sid).wsRef = st.wsRef := by
  unfold browserClose
  split <;> simp

@[simp] theorem browserClose_reconnectTimeoutRef (st : HookState) (sid : Nat) :
    (browserClose st sid).reconnectTimeoutRef = st.reconnectTimeoutRef := by
  unfold browserClose
  split <;> simp

@[simp] theorem browserClose_reconnectAttemptsRef (st : HookState) (sid : Nat) :
    (browserClose st sid).reconnectAttemptsRef = st.reconnectAttemptsRef := by
  unfold browserClose
  split <;> simp

@[simp] theorem browserClose_nextTimerId (st : HookState) (sid : Nat) :
    (browserClose st sid).nextTimerId = st.nextTimerId := by
  unfold browserClose
  split <;> simp

@[simp] theorem browserClose_activeTimers (st : HookState) (sid : Nat) :
    (browserClose st sid).activeTimers = st.activeTimers := by
  unfold browserClose
  split <;> simp

@[simp] theorem browserClose_errorLog (st : HookState) (sid : Nat) :
    (browserClose st sid).errorLog = st.errorLog := by
  unfold browserClose
  split <;> simp

@[simp] theorem browserClose_error (st : HookState) (sid : Nat) :
    (browserClose st sid).error = st.error := by
  unfold browserClose
  split <;> simp

@[simp] theorem browserClose_sockets_length (st : HookState) (sid : Nat) :
    (browserClose st sid).sockets.length = st.sockets.length := by
  unfold browserClose
  split <;> simp

theorem cleanup_wsRef (st : HookState) : (cleanup st).wsRef = none := by
  unfold cleanup
  rcases h1 : st.reconnectTimeoutRef with _ | t <;>
    rcases h2 : st.wsRef with _ | sid <;> simp [h1, h2]

theorem cleanup_reconnectTimeoutRef (st : HookState) :
    (cleanup st).reconnectTimeoutRef = none := by
  unfold cleanup
  rcases h1 : st.reconnectTimeoutRef with _ | t <;>
    rcases h2 : st.wsRef with _ | sid <;> simp [h1, h2]

theorem cleanup_reconnectAttemptsRef (st : HookState) :
    (cleanup st).reconnectAttemptsRef = st.reconnectAttemptsRef := by
  unfold cleanup
  rcases h1 : st.reconnectTimeoutRef with _ | t <;>
    rcases h2 : st.wsRef with _ | sid <;> simp [h1, h2]

theorem cleanup_nextTimerId (st : HookState) :
    (cleanup st).nextTimerId = st.nextTimerId := by
  unfold cleanup
  rcases h1 : st.reconnectTimeoutRef with _ | t <;>
    rcases h2 : st.wsRef with _ | sid <;> simp [h1, h2]

theorem cleanup_sockets_length (st : HookState) :
    (cleanup st).sockets.length = st.sockets.length := by
  unfold cleanup
  rcases h1 : st.reconnectTimeoutRef with _ | t <;>
    rcases h2 : st.wsRef with _ | sid <;> simp [h1, h2]

theorem cleanup_errorLog (st : HookState) :
    (cleanup st).errorLog = st.errorLog := by
  unfold cleanup
  rcases h1 : st.reconnectTimeoutRef with _ | t <;>
    rcases h2 : st.wsRef with _ | sid <;> simp [h1, h2]

theorem cleanup_error (st : HookState) :
    (cleanup st).error = st.error := by
  unfold cleanup
  rcases h1 : st.reconnectTimeoutRef with _ | t <;>
    rcases h2 : st.wsRef with _ | sid <;> simp [h1, h2]

theorem cleanup_isConnectingRef (st : HookState) :
    (cleanup st).isConnectingRef = false := by
  unfold cleanup
  rcases h1 : st.reconnectTimeoutRef with _ | t <;>
    rcases h2 : st.wsRef with _ | sid <;> simp [h1, h2]

/- ------------------------------------------------------------------ -/
/- Claim theorems                                                      -/
/- ------------------------------------------------------------------ -/

/-- C1: the claim fails on the code.  In `leakedTimerTrace`, event 7 is
the manual `disconnect()` (after socket 0 had been `Open`), the state at
that point has `reconnectAttemptsRef = maxReconnectAttempts` and two
sockets created, and the remaining suffix of the trace is a single
reconnect-timer expiry — no further caller invocation.  Yet running that
suffix creates a third socket and makes it the owned handle: the timer
scheduled by socket 0's abnormal close was leaked when socket 1's close
handler overwrote `reconnectTimeoutRef` without `clearTimeout`, so
`disconnect()` cancelled only the stored timer and the leaked one later
fired `connect()`.  An automatic reconnection attempt therefore does
start after a manual close. -/
theorem manual_close_followed_by_automatic_reconnect :
    traceValid "7" "abc" initState leakedTimerTrace = true ∧
    leakedTimerTrace.take 7 ++ [Event.timerFires 0 true] = leakedTimerTrace ∧
    (leakedTimerTrace.take 7).getLast? = some Event.callDisconnect ∧
    (run "7" "abc" initState (leakedTimerTrace.take 7)).reconnectAttemptsRef
      = maxReconnectAttempts ∧
    (run "7" "abc" initState (leakedTimerTrace.take 7)).reconnectTimeoutRef = none ∧
    (run "7" "abc" initState (leakedTimerTrace.take 7)).activeTimers = [0] ∧
    (run "7" "abc" initState (leakedTimerTrace.take 7)).sockets.length = 2 ∧
    (run "7" "abc" initState leakedTimerTrace).sockets.length = 3 ∧
    (run "7" "abc" initState leakedTimerTrace).wsRef = some 2 := by
  decide

/-- C2: the reconnection policy as scripted by the spec.  Part 1: for
every `N ≤ 5`, after an initial open followed by `N` abrupt disconnects
each followed by a successful reconnect, the attempt counter is back to
0 (quantifying over all `N ≤ 5` states the counter is 0 after each of
the successes).  Part 2: after `maxReconnectAttempts + 1 = 6`
consecutive abrupt disconnects with no successful open, the counter sits
at `maxReconnectAttempts`, exactly one exhaustion error was issued, it
is the surfaced error, no timer is pending and no sixth timer was ever
allocated (ids 0..4 only), i.e. the manager is terminally exhausted and
schedules no further timer. -/
theorem reconnect_policy_resets_and_exhausts :
    (∀ N : Nat, N ≤ 5 →
      traceValid "7" "abc" initState (successScript N) = true ∧
      (run "7" "abc" initState (successScript N)).reconnectAttemptsRef = 0 ∧
      (run "7" "abc" initState (successScript N)).isConnected = true) ∧
    (traceValid "7" "abc" initState exhaustionScript = true ∧
     (run "7" "abc" initState exhaustionScript).reconnectAttemptsRef
       = maxReconnectAttempts ∧
     (run "7" "abc" initState exhaustionScript).errorLog = [exhaustedMsg] ∧
     (run "7" "abc" initState exhaustionScript).error = some exhaustedMsg ∧
     (run "7" "abc" initState exhaustionScript).activeTimers = [] ∧
     (run "7" "abc" initState exhaustionScript).nextTimerId = 5) := by
  constructor
  · decide
  · decide

/-- C2 witness: the quantified part of the policy theorem applied at the
concrete input `N = 5`. -/
theorem reconnect_policy_resets_and_exhausts_witness :
    traceValid "7" "abc" initState (successScript 5) = true ∧
    (run "7" "abc" initState (successScript 5)).reconnectAttemptsRef = 0 ∧
    (run "7" "abc" initState (successScript 5)).isConnected = true :=
  reconnect_policy_resets_and_exhausts.1 5 (by decide)

/-- C3: `open()` is idempotent.  Part 1: for any props and any state
whose owned socket is `CONNECTING` or `OPEN` (the manager is
`Connecting` or `Open`), `connect` returns the state unchanged — the
guards at lines 69-77 return early.  Part 2: from the initial state,
calling `connect` twice in immediate succession yields exactly the
state of a single call, with exactly one socket ever created; letting
that one socket complete its handshake yields exactly one `onConnect`
invocation. -/
theorem open_is_idempotent :
    (∀ (roomId token : String) (ctorOk : Bool) (st : HookState),
      currentReadyState st = some ReadyState.CONNECTING ∨
        currentReadyState st = some ReadyState.OPEN →
      connect roomId token ctorOk st = st) ∧
    (run "7" "abc" initState [Event.callConnect true, Event.callConnect true]
       = run "7" "abc" initState [Event.callConnect true] ∧
     (run "7" "abc" initState [Event.callConnect true, Event.callConnect true]).sockets.length
       = 1 ∧
     traceValid "7" "abc" initState
       [Event.callConnect true, Event.callConnect true, Event.sockOpen 0] = true ∧
     (run "7" "abc" initState
       [Event.callConnect true, Event.callConnect true, Event.sockOpen 0]).onConnectCalls
       = 1) := by
  constructor
  · intro roomId token ctorOk st h
    unfold connect
    rcases h with h | h <;> simp [h]
  · decide

/-- C3 witness: a `connect` call in the `Connecting` state (the state
after one `connect` from the initial state) changes nothing. -/
theorem open_is_idempotent_witness :
    connect "7" "abc" true (run "7" "abc" initState [Event.callConnect true])
      = run "7" "abc" initState [Event.callConnect true] :=
  open_is_idempotent.1 "7" "abc" true
    (run "7" "abc" initState [Event.callConnect true]) (Or.inl (by decide))

/-- C4: the claim fails on the code.  In `staleCloseTrace` the owned
handle after event 4 is socket 1 (socket 0 was superseded by the second
`connect`), no `onDisconnect` has fired and no timer is pending; the
final event is the close of the superseded socket 0, yet its handler —
which checks no handle identity — invokes `onDisconnect`, increments the
attempt counter and schedules a reconnect timer, so a stale callback
both reaches the caller and mutates the manager's current state. -/
theorem stale_close_reaches_caller_and_mutates_state :
    traceValid "7" "abc" initState staleCloseTrace = true ∧
    staleCloseTrace.take 4 ++ [Event.sockClose 0 1001] = staleCloseTrace ∧
    (run "7" "abc" initState (staleCloseTrace.take 4)).wsRef = some 1 ∧
    (run "7" "abc" initState (staleCloseTrace.take 4)).onDisconnectCalls = 0 ∧
    (run "7" "abc" initState (staleCloseTrace.take 4)).reconnectAttemptsRef = 0 ∧
    (run "7" "abc" initState (staleCloseTrace.take 4)).activeTimers = [] ∧
    (run "7" "abc" initState staleCloseTrace).wsRef = some 1 ∧
    (run "7" "abc" initState staleCloseTrace).onDisconnectCalls = 1 ∧
    (run "7" "abc" initState staleCloseTrace).reconnectAttemptsRef = 1 ∧
    (run "7" "abc" initState staleCloseTrace).activeTimers = [0] := by
  decide

/-- C5 counterexample: on the transition out of `Open` caused by an
abnormal close (`abruptDropTrace`), the transport handle is NOT released
— `wsRef` still holds socket 0 afterwards, contradicting the claim that
both handles are set to absent on every transition out of
`Open`/`ReconnectWait`. -/
theorem abnormal_close_retains_transport_handle :
    traceValid "7" "abc" initState abruptDropTrace = true ∧
    readyStateOf (run "7" "abc" initState (abruptDropTrace.take 2)) 0
      = some ReadyState.OPEN ∧
    (run "7" "abc" initState abruptDropTrace).wsRef = some 0 ∧
    ¬ (run "7" "abc" initState abruptDropTrace).wsRef = none := by
  decide

/-- C5 amended: `cleanup` — hence both manual `close()` and the entry of
every new `connect()` — releases both the transport handle and the timer
handle; but the close handler itself does not: for any state whose owned
socket closes with any code, the transport handle afterwards still
references that socket, whose `readyState` is then `CLOSED` (so the
retained handle is dead, not a live connection). -/
theorem handles_released_only_by_cleanup :
    (∀ st : HookState,
      (cleanup st).wsRef = none ∧ (cleanup st).reconnectTimeoutRef = none ∧
      (disconnect st).wsRef = none ∧ (disconnect st).reconnectTimeoutRef = none) ∧
    (∀ (st : HookState) (sid code : Nat),
      st.wsRef = some sid → sid < st.sockets.length →
      (onclose sid code st).wsRef = some sid ∧
      readyStateOf (onclose sid code st) sid = some ReadyState.CLOSED) := by
  constructor
  · intro st
    refine ⟨cleanup_wsRef st, cleanup_reconnectTimeoutRef st, ?_, ?_⟩
    · show ({ cleanup st with reconnectAttemptsRef := maxReconnectAttempts }).wsRef = none
      simp [cleanup_wsRef st]
    · show ({ cleanup st with
          reconnectAttemptsRef := maxReconnectAttempts }).reconnectTimeoutRef = none
      simp [cleanup_reconnectTimeoutRef st]
  · intro st sid code hws hlen
    simp only [onclose, setErrorMsg]
    split_ifs <;>
      simp [hws, readyStateOf, setReadyState, List.getElem?_set_eq_of_lt, hlen]

/-- C5 amended witness: the amended theorem applied to the state of
`abruptDropTrace` just before the abnormal close of the owned, open
socket 0. -/
theorem handles_released_only_by_cleanup_witness :
    (onclose 0 1006 (run "7" "abc" initState (abruptDropTrace.take 2))).wsRef = some 0 ∧
    readyStateOf (onclose 0 1006 (run "7" "abc" initState (abruptDropTrace.take 2))) 0
      = some ReadyState.CLOSED :=
  handles_released_only_by_cleanup.2
    (run "7" "abc" initState (abruptDropTrace.take 2)) 0 1006 (by decide) (by decide)

/-- C6 counterexample: `unvalidatedFrame` has discriminant `"message"`
but none of the ChatMessage fields; received on the open session it is
nevertheless forwarded to `onMessage`, so the decoder does not validate
the ChatMessage fields before forwarding. -/
theorem message_frame_forwarded_without_validation :
    hasChatMessageFields unvalidatedFrame = false ∧
    traceValid "7" "abc" initState
      [Event.callConnect true, Event.sockOpen 0,
       Event.sockMessage 0 (some unvalidatedFrame)] = true ∧
    (run "7" "abc" initState
      [Event.callConnect true, Event.sockOpen 0,
       Event.sockMessage 0 (some unvalidatedFrame)]).delivered = [unvalidatedFrame] := by
  decide

/-- C6 amended: the decoder checks only the discriminant.  A parsed
frame whose `type` is `"message"` is forwarded to `onMessage` unchanged,
whether or not the ChatMessage fields are present; a parsed frame with
any other or missing discriminant (other than the control frames
`"ping"`/`"pong"`) leaves the state unchanged — nothing is delivered —
and an unparseable frame is likewise dropped. -/
theorem decoder_checks_only_discriminant :
    (∀ (st : HookState) (sid : Nat) (m : Frame),
      m.type = some "message" →
      onmessage sid (some m) st = { st with delivered := st.delivered ++ [m] }) ∧
    (∀ (st : HookState) (sid : Nat) (m : Frame),
      m.type ≠ some "ping" → m.type ≠ some "pong" → m.type ≠ some "message" →
      onmessage sid (some m) st = st) ∧
    (∀ (st : HookState) (sid : Nat), onmessage sid none st = st) := by
  refine ⟨?_, ?_, ?_⟩
  · intro st sid m h
    unfold onmessage
    simp [h]
  · intro st sid m h1 h2 h3
    unfold onmessage
    simp [h1, h2, h3]
  · intro st sid
    rfl

/-- C6 amended witness: the amended theorem applied to the concrete
field-less `"message"` frame on the open session. -/
theorem decoder_checks_only_discriminant_witness :
    onmessage 0 (some unvalidatedFrame)
        (run "7" "abc" initState [Event.callConnect true, Event.sockOpen 0])
      = { run "7" "abc" initState [Event.callConnect true, Event.sockOpen 0] with
            delivered :=
              (run "7" "abc" initState
                [Event.callConnect true, Event.sockOpen 0]).delivered
                ++ [unvalidatedFrame] } :=
  decoder_checks_only_discriminant.1
    (run "7" "abc" initState [Event.callConnect true, Event.sockOpen 0]) 0
    unvalidatedFrame (by decide)

/-- C9: the claim fails on the code, which is the slip — the spec's
`close()` contract says a manual close surfaces no error, and the only
errors meant to surface are exhaustion and configuration errors.  In
`manualCloseTrace`, socket 0 is `Open` with no error surfaced; the
caller invokes `disconnect()` (which sets the attempt counter to
`maxReconnectAttempts`); when the socket's own clean close event (the
manual-close sentinel 1000) then arrives, the close handler's
`else if attempts >= maxAttempts` branch fires and surfaces the
exhaustion error after a plain manual close. -/
theorem manual_close_surfaces_exhaustion_error :
    traceValid "7" "abc" initState manualCloseTrace = true ∧
    manualCloseTrace.take 3 ++ [Event.sockClose 0 manualCloseCode] = manualCloseTrace ∧
    (manualCloseTrace.take 3).getLast? = some Event.callDisconnect ∧
    (run "7" "abc" initState (manualCloseTrace.take 3)).error = none ∧
    (run "7" "abc" initState (manualCloseTrace.take 3)).errorLog = [] ∧
    (run "7" "abc" initState manualCloseTrace).error = some exhaustedMsg ∧
    (run "7" "abc" initState manualCloseTrace).errorLog = [exhaustedMsg] := by
  decide

/-- C7: `sendMessage` returns a boolean and never raises (it is a total
function here because both failure paths of the source are caught).  It
returns `true` exactly when the owned socket exists, is `OPEN`, and the
underlying write succeeds; whenever it returns `false` the state is
completely unchanged (no write, no buffering); when it returns `true`
the only change is the single write of the wrapped content handed to the
owned socket. -/
theorem send_false_without_open_session_true_after_write :
    ∀ (st : HookState) (content : String) (writeOk : Bool),
      ((sendMessage content writeOk st).1 = true ↔
        currentReadyState st = some ReadyState.OPEN ∧ writeOk = true) ∧
      ((sendMessage content writeOk st).1 = false →
        (sendMessage content writeOk st).2 = st) ∧
      ((sendMessage content writeOk st).1 = true →
        ∃ sid, st.wsRef = some sid ∧
          (sendMessage content writeOk st).2
            = { st with writes := st.writes ++ [(sid, Payload.content content)] }) := by
  intro st content writeOk
  unfold sendMessage currentReadyState
  rcases h : st.wsRef with _ | sid
  · simp [h]
  · by_cases hr : readyStateOf st sid = some ReadyState.OPEN
    · cases writeOk
      · simp [h, hr]
      · simp only [h, Option.some_bind, hr]
        refine ⟨by simp, by simp, ?_⟩
        intro _
        exact ⟨sid, rfl, by simp [hr]⟩
    · cases writeOk <;> simp [h, hr]

/-- C7 witness: on the open session of `abruptDropTrace.take 2` a
successful write of `"x"` returns `true`. -/
theorem send_false_without_open_session_true_after_write_witness :
    (sendMessage "x" true (run "7" "abc" initState (abruptDropTrace.take 2))).1 = true :=
  (send_false_without_open_session_true_after_write
    (run "7" "abc" initState (abruptDropTrace.take 2)) "x" true).1.mpr (by decide)

/-- C8: a `"ping"` frame arriving on socket `sid` is answered with
exactly one `"pong"` written on that same socket when the socket is
still open — the state changes by that single write only, so `onMessage`
is not invoked — and produces no write at all when the socket is no
longer open; a `"pong"` frame leaves the state completely unchanged (no
write, no callback). -/
theorem ping_answered_with_one_pong_pong_discarded :
    ∀ (st : HookState) (sid : Nat) (m : Frame),
      (m.type = some "ping" →
        (readyStateOf st sid = some ReadyState.OPEN →
          onmessage sid (some m) st
            = { st with writes := st.writes ++ [(sid, Payload.pong)] }) ∧
        (readyStateOf st sid ≠ some ReadyState.OPEN →
          onmessage sid (some m) st = st)) ∧
      (m.type = some "pong" → onmessage sid (some m) st = st) := by
  intro st sid m
  constructor
  · intro h
    constructor
    · intro hr
      unfold onmessage
      simp [h, hr]
    · intro hr
      unfold onmessage
      simp [h, hr]
  · intro h
    unfold onmessage
    simp [h]

/-- C8 witness: a field-free ping frame received on the open socket 0
is answered with exactly one pong on socket 0. -/
theorem ping_answered_with_one_pong_pong_discarded_witness :
    onmessage 0 (some pingFrame) (run "7" "abc" initState (abruptDropTrace.take 2))
      = { run "7" "abc" initState (abruptDropTrace.take 2) with
            writes := (run "7" "abc" initState (abruptDropTrace.take 2)).writes
              ++ [(0, Payload.pong)] } :=
  ((ping_answered_with_one_pong_pong_discarded
      (run "7" "abc" initState (abruptDropTrace.take 2)) 0 pingFrame).1 rfl).1
    (by decide)

/-- C10: when the `WebSocket` constructor throws synchronously during a
`connect` that passed all guards (not in flight, owned socket neither
open nor connecting, non-empty config), the exception is caught locally:
the constructor-failure error string is recorded, the in-flight flag is
cleared, the attempt counter is unchanged, the stored timer handle is
cleared and no timer is allocated (`nextTimerId` unchanged), no socket
is created, and no socket is owned — so the failure never feeds the
reconnection policy. -/
theorem ctor_throw_caught_without_feeding_reconnect_policy :
    ∀ (roomId token : String) (st : HookState),
      st.isConnectingRef = false →
      ¬ currentReadyState st = some ReadyState.OPEN →
      ¬ currentReadyState st = some ReadyState.CONNECTING →
      ¬ roomId = "" → ¬ token = "" →
      (connect roomId token false st).error = some ctorFailMsg ∧
      (connect roomId token false st).errorLog = st.errorLog ++ [ctorFailMsg] ∧
      (connect roomId token false st).isConnectingRef = false ∧
      (connect roomId token false st).reconnectAttemptsRef = st.reconnectAttemptsRef ∧
      (connect roomId token false st).reconnectTimeoutRef = none ∧
      (connect roomId token false st).nextTimerId = st.nextTimerId ∧
      (connect roomId token false st).sockets.length = st.sockets.length ∧
      (connect roomId token false st).wsRef = none := by
  intro roomId token st h1 h2 h3 h4 h5
  unfold connect
  simp [h1, h2, h3, h4, h5, setErrorMsg, cleanup_error, cleanup_errorLog,
    cleanup_reconnectAttemptsRef, cleanup_reconnectTimeoutRef, cleanup_nextTimerId,
    cleanup_sockets_length, cleanup_wsRef]

/-- C10 witness: the constructor-throw theorem applied at the initial
state with the concrete config of the spec's scenario. -/
theorem ctor_throw_caught_without_feeding_reconnect_policy_witness :
    (connect "7" "abc" false initState).error = some ctorFailMsg ∧
    (connect "7" "abc" false initState).errorLog = initState.errorLog ++ [ctorFailMsg] ∧
    (connect "7" "abc" false initState).isConnectingRef = false ∧
    (connect "7" "abc" false initState).reconnectAttemptsRef
      = initState.reconnectAttemptsRef ∧
    (connect "7" "abc" false initState).reconnectTimeoutRef = none ∧
    (connect "7" "abc" false initState).nextTimerId = initState.nextTimerId ∧
    (connect "7" "abc" false initState).sockets.length = initState.sockets.length ∧
    (connect "7" "abc" false initState).wsRef = none :=
  ctor_throw_caught_without_feeding_reconnect_policy "7" "abc" initState
    (by decide) (by decide) (by decide) (by decide) (by decide)

end RTCChat
